import Mathlib

/-
Verification development for the 3dmol-agent remote command bridge.

Sources embedded below:
- static/js/test_runner.js, MolecularViewer revision at lines 1046-1661
  (socket command handler, execCommand render state machine);
- static/js/test_runner.js, MolecularViewer revision at lines 2147-2961
  (the rotate case with a cosmetic CSS transform reverted by a timer);
- static/js/viewer.js.bak, the rotate case at lines 113-134;
- attached_assets/Pasted--app-py... .txt (the Flask prototype app.py):
  connect/disconnect session registry and the _call_viewer dispatcher.

Machine numbers are rationals; JavaScript truthiness of a number is
modelled as being nonzero, and of a string as being nonempty.
-/

-- ===== Data model =====

/-- Rotation axis of the viewer. -/
inductive Axis
  | x
  | y
  | z
deriving DecidableEq

/-- A coordinate triple, as the center and size arguments of add_box. -/
structure Vec3 where
  x : ℚ
  y : ℚ
  z : ℚ
deriving DecidableEq

/-- An atom selection payload, passed opaquely to the renderer. -/
inductive Sel
  | all
  | het
  | chainSel (c : String)
  | customSel (j : String)
deriving DecidableEq

/-- A style payload, passed opaquely to the renderer. -/
inductive VStyle
  | cartoonSpectrum
  | orangeStick
  | emptyStyle
  | customStyle (j : String)
deriving DecidableEq

/-- The closed command set of the bridge, with the argument shapes the
executors read from the payload object.  Optional arguments model absent
or null JSON fields. -/
inductive Cmd
  | load_pdb (pdb_id : String)
  | highlight_hetero
  | show_surface (selection : Option Sel)
  | rotateCmd (rx ry rz : Option ℚ)
  | zoomCmd (factor : Option ℚ)
  | add_box (center size : Option Vec3)
  | set_style (selection : Option Sel) (style : Option VStyle)
  | resetCmd
  | unknownCmd (nm : String)
deriving DecidableEq

/-- The camera of the viewer: the word of rotations composed so far
(each viewer.rotate call appends one) and the accumulated zoom factor
(viewer.zoom multiplies it, viewer.zoomTo restores the fit value 1). -/
structure Camera where
  orient : List (Axis × ℚ)
  zoomLevel : ℚ
deriving DecidableEq

/-- The camera produced by creating a fresh viewer. -/
def canonicalCamera : Camera :=
  { orient := [], zoomLevel := 1 }

/-- The render state owned by the remote executor: the 3Dmol viewer
content (models, shapes, surfaces, style rules, camera) together with
the viewerState bookkeeping object and the boxinfo DOM element of
MolecularViewer (test_runner.js lines 1046-1661). -/
structure RenderState where
  loadedStructureId : Option String
  modelLoaded : Bool
  shapes : List (Vec3 × Vec3)
  surfaces : List (Option Sel)
  styleRules : List (Sel × VStyle)
  camera : Camera
  initialView : Option Camera
  hasActiveBox : Bool
  boxCenter : Option Vec3
  boxSize : Option Vec3
  rotationChanged : Bool
  xRotated : Bool
  yRotated : Bool
  zRotated : Bool
  wasReset : Bool
  shapesCleared : Bool
  boxinfoVisible : Bool
deriving DecidableEq

/-- The state of a freshly constructed MolecularViewer. -/
def initState : RenderState :=
  { loadedStructureId := none
    modelLoaded := false
    shapes := []
    surfaces := []
    styleRules := []
    camera := canonicalCamera
    initialView := none
    hasActiveBox := false
    boxCenter := none
    boxSize := none
    rotationChanged := false
    xRotated := false
    yRotated := false
    zRotated := false
    wasReset := false
    shapesCleared := false
    boxinfoVisible := false }

-- ===== JavaScript value helpers =====

/-- The JavaScript idiom `v || d` on a number: 0 is falsy and is replaced
by the default. -/
def jsOrQ (v d : ℚ) : ℚ :=
  if v = 0 then d else v

/-- Truthiness of an optional numeric field, as in `p.x && parseFloat(p.x) !== 0`. -/
def truthyQ : Option ℚ → Bool
  | none => false
  | some v => decide (v ≠ 0)

/-- The idiom `typeof p.x === 'number' ? p.x : 0`. -/
def numOr0 : Option ℚ → ℚ
  | none => 0
  | some v => v

/-- Truthiness of an optional string field: absent and empty are falsy. -/
def strTruthy : Option String → Bool
  | none => false
  | some s => decide (s ≠ String.mk [])

-- ===== Remote executor (test_runner.js lines 1168-1520) =====

/-- Renderer fault switches: whether the PDB fetch fails in load_pdb and
whether the viewer.addBox call throws in add_box. -/
structure Faults where
  fetchFails : Bool
  addBoxThrows : Bool
deriving DecidableEq

/-- The fault-free renderer. -/
def noFaults : Faults :=
  { fetchFails := false, addBoxThrows := false }

/-- The rotate case of the executor at test_runner.js lines 1255-1310:
one angle and one axis are chosen, taking the first truthy nonzero
argument in the order x, y, z, with the y axis and angle 0 as default. -/
def pickAxisAngle (ox oy oz : Option ℚ) : Axis × ℚ :=
  if truthyQ ox then (Axis.x, numOr0 ox)
  else if truthyQ oy then (Axis.y, numOr0 oy)
  else if truthyQ oz then (Axis.z, numOr0 oz)
  else (Axis.y, 0)

/-- MolecularViewer.execCommand of test_runner.js lines 1168-1520,
returning the mutated state together with the error thrown out of the
switch, if any.  Mutations made before a throw persist, as they do on
the JavaScript object. -/
def execCommand (f : Faults) (s : RenderState) : Cmd → RenderState × Option String
  | Cmd.load_pdb pid =>
      -- viewer.clear() drops models, shapes, surfaces and their styles;
      -- this.currentPDB is assigned before the fetch, so it changes even
      -- when the fetch fails and the handler rethrows.
      let s2 : RenderState :=
        { s with
            modelLoaded := false
            shapes := []
            surfaces := []
            styleRules := []
            loadedStructureId := some pid }
      if f.fetchFails then
        (s2, some ("Failed to fetch PDB"))
      else
        let cam : Camera := { s2.camera with zoomLevel := 1 }
        ({ s2 with
            modelLoaded := true
            styleRules := [(Sel.all, VStyle.cartoonSpectrum)]
            camera := cam
            initialView := some cam
            rotationChanged := false
            hasActiveBox := false }, none)
  | Cmd.highlight_hetero =>
      ({ s with styleRules := s.styleRules ++ [(Sel.het, VStyle.orangeStick)] }, none)
  | Cmd.show_surface sel =>
      ({ s with surfaces := s.surfaces ++ [sel] }, none)
  | Cmd.rotateCmd ox oy oz =>
      let aa := pickAxisAngle ox oy oz
      ({ s with
          camera := { s.camera with orient := s.camera.orient ++ [aa] }
          rotationChanged := true
          xRotated := decide (aa.1 = Axis.x)
          yRotated := decide (aa.1 = Axis.y)
          zRotated := decide (aa.1 = Axis.z) }, none)
  | Cmd.zoomCmd factor =>
      -- this.viewer.zoom(p.factor || 1.2, 1000)
      let eff : ℚ :=
        match factor with
        | none => 12 / 10
        | some fv => jsOrQ fv (12 / 10)
      ({ s with camera := { s.camera with zoomLevel := s.camera.zoomLevel * eff } }, none)
  | Cmd.add_box oc osz =>
      let c := oc.getD { x := 0, y := 0, z := 0 }
      let sz := osz.getD { x := 10, y := 10, z := 10 }
      -- removeAllShapes() runs in its own try block before addBox.
      let bc : Vec3 := { x := jsOrQ c.x 0, y := jsOrQ c.y 0, z := jsOrQ c.z 0 }
      if f.addBoxThrows then
        -- catch branch at lines 1372-1419: the error is swallowed, the
        -- requested box is still recorded with per-component default 10.
        let bsz : Vec3 := { x := jsOrQ sz.x 10, y := jsOrQ sz.y 10, z := jsOrQ sz.z 10 }
        ({ s with
            shapes := []
            hasActiveBox := true
            boxCenter := some bc
            boxSize := some bsz
            boxinfoVisible := true }, none)
      else
        -- try branch: dimensions take per-component default 20.
        let dims : Vec3 := { x := jsOrQ sz.x 20, y := jsOrQ sz.y 20, z := jsOrQ sz.z 20 }
        ({ s with
            shapes := [(bc, dims)]
            hasActiveBox := true
            boxCenter := some bc
            boxSize := some dims
            boxinfoVisible := true }, none)
  | Cmd.set_style sel sty =>
      ({ s with styleRules := s.styleRules ++ [(sel.getD Sel.all, sty.getD VStyle.emptyStyle)] },
       none)
  | Cmd.resetCmd =>
      -- reset case at lines 1426-1512: hides boxinfo, removes shapes and
      -- surfaces, restores the saved initial view or falls back to
      -- zoomTo, resets the bookkeeping flags.  Style rules are untouched.
      ({ s with
          boxinfoVisible := false
          shapes := []
          surfaces := []
          camera :=
            match s.initialView with
            | some v => v
            | none => { s.camera with zoomLevel := 1 }
          wasReset := true
          shapesCleared := true
          hasActiveBox := false
          boxCenter := none
          boxSize := none
          rotationChanged := false
          xRotated := false
          yRotated := false
          zRotated := false }, none)
  | Cmd.unknownCmd _ => (s, none)

/-- Replaying a command sequence from the initial state, keeping the
state across individual command failures as the executor does. -/
def runCommands (f : Faults) (cs : List Cmd) : RenderState :=
  cs.foldl (fun s c => (execCommand f s c).1) initState

-- ===== Snapshot and command handler (test_runner.js lines 1098-1145) =====

/-- A snapshot serializes the visual surface; the PNG content is modelled
as determined by the captured render state. -/
abbrev Png := RenderState

/-- viewer.pngURI on the current state. -/
def pngURI (s : RenderState) : Png := s

/-- The data object delivered to the socket command handler. -/
structure Envelope where
  payload : Cmd
  request_id : Option String
  response_event : Option String
deriving DecidableEq

/-- A message emitted back by the handler: either the new
viewer_command_response event carrying a request_id, or a legacy emit on
the per-call response event. -/
inductive Response
  | cmdResponse (request_id : String) (success : Bool) (img : Option Png) (errMsg : Option String)
  | legacy (event : String) (success : Bool) (img : Option Png) (errMsg : Option String)
deriving DecidableEq

/-- The correlation identifier a response is tagged with. -/
def Response.corrId : Response → String
  | Response.cmdResponse rid _ _ _ => rid
  | Response.legacy ev _ _ _ => ev

/-- Whether a response reports success. -/
def Response.isSuccess : Response → Bool
  | Response.cmdResponse _ ok _ _ => ok
  | Response.legacy _ ok _ _ => ok

/-- The correlation identifier of an incoming envelope, as the handler
reads it: request_id when truthy, else response_event when truthy. -/
def Envelope.corrId (d : Envelope) : Option String :=
  if strTruthy d.request_id then d.request_id
  else if strTruthy d.response_event then d.response_event
  else none

/-- The socket command handler at test_runner.js lines 1098-1145: run the
command, screenshot, and emit exactly one tagged response, an error
response when execCommand threw. -/
def handleCommand (f : Faults) (s : RenderState) (d : Envelope) :
    RenderState × List Response :=
  let r := execCommand f s d.payload
  match r.2 with
  | none =>
      let png := pngURI r.1
      if strTruthy d.request_id then
        (r.1, [Response.cmdResponse (d.request_id.getD (String.mk [])) true (some png) none])
      else if strTruthy d.response_event then
        (r.1, [Response.legacy (d.response_event.getD (String.mk [])) true (some png) none])
      else (r.1, [])
  | some e =>
      if strTruthy d.request_id then
        (r.1, [Response.cmdResponse (d.request_id.getD (String.mk [])) false none (some e)])
      else if strTruthy d.response_event then
        (r.1, [Response.legacy (d.response_event.getD (String.mk [])) false none (some e)])
      else (r.1, [])

-- ===== Session registry (app.py prototype, _on_connect / _on_disconnect) =====

/-- The registry state: the _connected_sid slot together with the list of
currently connected viewer sessions.  Every accepted session is the
primary viewer, because a connect attempt while the slot is occupied is
refused with ConnectionRefusedError and never joins. -/
structure Registry where
  slot : Option Nat
  sessions : List Nat
deriving DecidableEq

/-- The registry before any connection. -/
def regInit : Registry :=
  { slot := none, sessions := [] }

/-- The connect handler: the first viewer takes the slot and is
registered (true); any further connect while the slot is occupied raises
ConnectionRefusedError (false) and the candidate never connects. -/
def onConnect (r : Registry) (sid : Nat) : Registry × Bool :=
  match r.slot with
  | none => ({ slot := some sid, sessions := sid :: r.sessions }, true)
  | some _ => (r, false)

/-- The disconnect handler: the session leaves, and the slot is cleared
exactly when the leaving session held it. -/
def onDisconnect (r : Registry) (sid : Nat) : Registry :=
  { slot := if r.slot = some sid then none else r.slot
    sessions := r.sessions.filter (fun q => decide (q ≠ sid)) }

/-- A connection lifecycle event. -/
inductive ConnEvent
  | connect (sid : Nat)
  | disconnect (sid : Nat)
deriving DecidableEq

/-- One registry transition. -/
def regStep (r : Registry) : ConnEvent → Registry
  | ConnEvent.connect sid => (onConnect r sid).1
  | ConnEvent.disconnect sid => onDisconnect r sid

/-- The registry reached from the initial state by an event interleaving. -/
def regRun (evs : List ConnEvent) : Registry :=
  evs.foldl regStep regInit

/-- The number of sessions holding the primary role. -/
def countPrimary (r : Registry) : Nat :=
  r.sessions.length

/-- Shape invariant of reachable registries: the session list is empty
exactly when the slot is free, and otherwise holds just the slot owner. -/
def RegGood (r : Registry) : Prop :=
  match r.slot with
  | none => r.sessions = []
  | some p => r.sessions = [p]

-- ===== Command dispatcher (app.py prototype, _call_viewer) =====

/-- The typed failures of a dispatch call. -/
inductive DispatchError
  | connectionUnavailable
  | timeoutErr
  | remoteExecution (msg : String)
deriving DecidableEq

/-- The _call_viewer helper: with no connected viewer it raises
immediately without any network round trip; otherwise it sends exactly
one command to the slot owner and waits, failing with a timeout when no
response arrives in time.  The second component lists the commands that
were actually sent over the transport. -/
def callViewer (primarySid : Option Nat) (net : Option Png) (c : Cmd) :
    Except DispatchError Png × List (Nat × Cmd) :=
  match primarySid with
  | none => (Except.error DispatchError.connectionUnavailable, [])
  | some sid =>
      match net with
      | none => (Except.error DispatchError.timeoutErr, [(sid, c)])
      | some img => (Except.ok img, [(sid, c)])

-- ===== Correlation table =====

/-- Terminal outcome of a dispatched call. -/
inductive CallOutcome
  | okImg (img : Nat)
  | timedOut
deriving DecidableEq

/-- Modelled from the spec: the server-side Correlation Table of the
Command Dispatcher (app.py with request_id correlation) is not under
src/, only its browser-side counterpart is, so PendingCall bookkeeping
follows sections 3, 4.2 and 7 of the spec: fresh unique correlation ids,
a deadline per pending call, removal on resolution or timeout, and late
responses dropped.  A pending entry pairs a correlation id with its
deadline. -/
structure CorrTable where
  now : Nat
  nextId : Nat
  pending : List (Nat × Nat)
  resolved : List (Nat × CallOutcome)
deriving DecidableEq

/-- The empty correlation table at time zero. -/
def corrInit : CorrTable :=
  { now := 0, nextId := 0, pending := [], resolved := [] }

/-- Events acting on the correlation table: dispatch of a call with a
timeout length, a clock tick, and arrival of a response for an id. -/
inductive CorrEvent
  | send (timeoutLen : Nat)
  | tick
  | response (id : Nat) (img : Nat)
deriving DecidableEq

/-- One correlation-table transition.  send allocates a fresh id; tick
advances the clock and fails every pending call whose deadline has
elapsed with a timeout, removing it; a response resolves the pending
call with its id and is dropped when none is pending. -/
def corrStep (σ : CorrTable) : CorrEvent → CorrTable
  | CorrEvent.send len =>
      { σ with
          nextId := σ.nextId + 1
          pending := (σ.nextId, σ.now + len) :: σ.pending }
  | CorrEvent.tick =>
      let t := σ.now + 1
      { σ with
          now := t
          pending := σ.pending.filter (fun p => decide (t < p.2))
          resolved :=
            (σ.pending.filter (fun p => decide (p.2 ≤ t))).map
              (fun p => (p.1, CallOutcome.timedOut)) ++ σ.resolved }
  | CorrEvent.response id img =>
      if σ.pending.any (fun p => decide (p.1 = id)) then
        { σ with
            pending := σ.pending.filter (fun p => decide (p.1 ≠ id))
            resolved := (id, CallOutcome.okImg img) :: σ.resolved }
      else σ

/-- The correlation table reached from the initial one by an event list. -/
def corrRun (evs : List CorrEvent) : CorrTable :=
  evs.foldl corrStep corrInit

/-- Invariant of reachable correlation tables: every id ever issued is
below the fresh-id counter, no id is both pending and resolved, and
pending ids are pairwise distinct. -/
def CorrGood (σ : CorrTable) : Prop :=
  (∀ p ∈ σ.pending, p.1 < σ.nextId) ∧
  (∀ q ∈ σ.resolved, q.1 < σ.nextId) ∧
  (∀ p ∈ σ.pending, ∀ q ∈ σ.resolved, p.1 ≠ q.1) ∧
  (σ.pending.map Prod.fst).Nodup

-- ===== The other two rotate revisions =====

/-- The rotate case of viewer.js.bak lines 113-134: each axis with a
nonzero numeric angle is applied as its own sequential renderer rotation,
in the fixed order x, then y, then z. -/
def rotateBak (orient : List (Axis × ℚ)) (ox oy oz : Option ℚ) : List (Axis × ℚ) :=
  let ax := numOr0 ox
  let ay := numOr0 oy
  let az := numOr0 oz
  orient ++
    (if ax = 0 then [] else [(Axis.x, ax)]) ++
    (if ay = 0 then [] else [(Axis.y, ay)]) ++
    (if az = 0 then [] else [(Axis.z, az)])

/-- Modelled from the spec wording, for comparison against the code in
claim C5: each non-null axis argument is applied as an independent
sequential rotation in the fixed order x, then y, then z. -/
def rotateSpecOrder (orient : List (Axis × ℚ)) (ox oy oz : Option ℚ) : List (Axis × ℚ) :=
  orient ++
    (match ox with
     | some v => [(Axis.x, v)]
     | none => []) ++
    (match oy with
     | some v => [(Axis.y, v)]
     | none => []) ++
    (match oz with
     | some v => [(Axis.z, v)]
     | none => [])

-- ===== The CSS-transform rotate revision (test_runner.js 2338-2449) =====

/-- The model-level part of the viewer state touched by the CSS-transform
rotate revision: the composed camera rotations and the bookkeeping flags. -/
structure CssCore where
  orient : List (Axis × ℚ)
  rotationChanged : Bool
  xRotated : Bool
  yRotated : Bool
  zRotated : Bool
deriving DecidableEq

/-- The full visual state of that revision: the core plus the cosmetic
canvas CSS transform chain, the magenta canvas border, and the wall-clock
instants at which scheduled setTimeout callbacks will revert them. -/
structure CssState where
  core : CssCore
  canvasTransform : List (Axis × ℚ)
  canvasBorder : Bool
  timers : List Nat
deriving DecidableEq

/-- The initial visual state of that revision. -/
def cssInit : CssState :=
  { core := { orient := [], rotationChanged := false, xRotated := false,
              yRotated := false, zRotated := false }
    canvasTransform := []
    canvasBorder := false
    timers := [] }

/-- The argument triple of a rotate command. -/
abbrev RotArgs := Option ℚ × Option ℚ × Option ℚ

/-- Run every setTimeout callback due by instant u: each one clears the
canvas transform and border. -/
def fireTimers (u : Nat) (σ : CssState) : CssState :=
  if σ.timers.any (fun t => decide (t ≤ u)) then
    { σ with
        canvasTransform := []
        canvasBorder := false
        timers := σ.timers.filter (fun t => decide (u < t)) }
  else σ

/-- The CSS transform chain built at lines 2395-2398: one rotation entry
per nonzero angle. -/
def cssTransformOf (ax ay az : ℚ) : List (Axis × ℚ) :=
  (if ax = 0 then [] else [(Axis.x, ax)]) ++
  (if ay = 0 then [] else [(Axis.y, ay)]) ++
  (if az = 0 then [] else [(Axis.z, az)])

/-- The effect of that rotate revision on the core state alone: the
attempted viewer.rotate call composes the three requested axis rotations
and the flags record which angles were nonzero. -/
def rotateCore (c : CssCore) (a : RotArgs) : CssCore :=
  let ax := numOr0 a.1
  let ay := numOr0 a.2.1
  let az := numOr0 a.2.2
  { orient := c.orient ++ [(Axis.x, ax), (Axis.y, ay), (Axis.z, az)]
    rotationChanged := true
    xRotated := decide (ax ≠ 0)
    yRotated := decide (ay ≠ 0)
    zRotated := decide (az ≠ 0) }

/-- The rotate case of the revision at test_runner.js lines 2338-2449,
executed at wall-clock instant t: the canvas transform and border are set
and a setTimeout scheduled for t + 2000 will revert them; the core is
updated as by rotateCore. -/
def rotateCss (t : Nat) (σ : CssState) (a : RotArgs) : CssState :=
  { core := rotateCore σ.core a
    canvasTransform := cssTransformOf (numOr0 a.1) (numOr0 a.2.1) (numOr0 a.2.2)
    canvasBorder := true
    timers := (t + 2000) :: σ.timers }

/-- Run a sequence of rotate commands, the i-th at instant sched (i + i0),
firing due timers before each command. -/
def runCssT (σ : CssState) : List RotArgs → (Nat → Nat) → Nat → CssState
  | [], _, _ => σ
  | a :: rest, sched, i =>
      runCssT (rotateCss (sched i) (fireTimers (sched i) σ) a) rest sched (i + 1)

/-- The untimed core run of the same command sequence. -/
def runCore (c : CssCore) : List RotArgs → CssCore
  | [] => c
  | a :: rest => runCore (rotateCore c a) rest

-- ===== Helper lemmas =====

theorem jsOrQ_zero_right (v : ℚ) : jsOrQ v 0 = v := by
  unfold jsOrQ
  split <;> simp_all

theorem jsOrQ_of_ne (v d : ℚ) (h : v ≠ 0) : jsOrQ v d = v := by
  unfold jsOrQ
  simp [h]

-- ===== Claim C3 =====

/-- Claim C3: a dispatch call made while no primary session is registered
fails immediately with ConnectionUnavailable, before any command is sent
to the transport, and never fails with Timeout. -/
theorem dispatch_no_primary_fails_fast (r : Registry) (net : Option Png) (c : Cmd)
    (h : r.slot = none) :
    callViewer r.slot net c = (Except.error DispatchError.connectionUnavailable, []) ∧
    ∀ sent : List (Nat × Cmd),
      callViewer r.slot net c ≠ (Except.error DispatchError.timeoutErr, sent) := by
  rw [h]
  refine ⟨rfl, ?_⟩
  intro sent hc
  simp [callViewer] at hc

theorem dispatch_no_primary_fails_fast_witness :
    regInit.slot = none ∧
    (callViewer regInit.slot none Cmd.highlight_hetero =
        (Except.error DispatchError.connectionUnavailable, []) ∧
      ∀ sent : List (Nat × Cmd),
        callViewer regInit.slot none Cmd.highlight_hetero ≠
          (Except.error DispatchError.timeoutErr, sent)) :=
  ⟨rfl, dispatch_no_primary_fails_fast regInit none Cmd.highlight_hetero rfl⟩

-- ===== Claim C5 =====

/-- Claim C5 counterexample: a single rotate call with both x and y
nonzero applies only the x rotation in the live executor, not the
spec-ordered composition of both. -/
theorem rotate_single_axis_counterexample :
    (execCommand noFaults initState (Cmd.rotateCmd (some 90) (some 45) none)).1.camera.orient ≠
      rotateSpecOrder initState.camera.orient (some 90) (some 45) none := by
  decide

/-- Claim C5 (amended): per rotate call the live executor applies exactly
one rotation, for the first truthy nonzero axis in priority order x, y, z
(with a zero-degree y rotation as default); two sequential single-axis
calls still compose in call order; only the backup viewer revision
applies each non-null nonzero axis sequentially in the fixed order x,
then y, then z as the spec words it. -/
theorem rotate_amended :
    (∀ (f : Faults) (s : RenderState) (ox oy oz : Option ℚ),
      (execCommand f s (Cmd.rotateCmd ox oy oz)).1.camera.orient =
        s.camera.orient ++ [pickAxisAngle ox oy oz]) ∧
    (∀ (w : List (Axis × ℚ)) (ox oy oz : Option ℚ),
      (∀ v, ox = some v → v ≠ 0) → (∀ v, oy = some v → v ≠ 0) →
      (∀ v, oz = some v → v ≠ 0) →
      rotateBak w ox oy oz = rotateSpecOrder w ox oy oz) ∧
    (∀ (f : Faults) (s : RenderState),
      (execCommand f (execCommand f s (Cmd.rotateCmd (some 90) none none)).1
          (Cmd.rotateCmd none (some 45) none)).1.camera.orient =
        s.camera.orient ++ [(Axis.x, 90), (Axis.y, 45)]) := by
  refine ⟨?_, ?_, ?_⟩
  · intro f s ox oy oz
    simp [execCommand]
  · intro w ox oy oz hx hy hz
    cases ox with
    | none => cases oy with
      | none => cases oz with
        | none => rfl
        | some vz => simp [rotateBak, rotateSpecOrder, numOr0, hz vz rfl]
      | some vy => cases oz with
        | none => simp [rotateBak, rotateSpecOrder, numOr0, hy vy rfl]
        | some vz => simp [rotateBak, rotateSpecOrder, numOr0, hy vy rfl, hz vz rfl]
    | some vx => cases oy with
      | none => cases oz with
        | none => simp [rotateBak, rotateSpecOrder, numOr0, hx vx rfl]
        | some vz => simp [rotateBak, rotateSpecOrder, numOr0, hx vx rfl, hz vz rfl]
      | some vy => cases oz with
        | none => simp [rotateBak, rotateSpecOrder, numOr0, hx vx rfl, hy vy rfl]
        | some vz =>
            simp [rotateBak, rotateSpecOrder, numOr0, hx vx rfl, hy vy rfl, hz vz rfl]
  · intro f s
    simp [execCommand, pickAxisAngle, truthyQ, numOr0]

theorem rotate_amended_witness :
    ((execCommand noFaults initState (Cmd.rotateCmd (some 30) none none)).1.camera.orient =
      initState.camera.orient ++ [pickAxisAngle (some 30) none none]) ∧
    rotateBak [] (some 90) (some 45) none = rotateSpecOrder [] (some 90) (some 45) none ∧
    ((execCommand noFaults
        (execCommand noFaults initState (Cmd.rotateCmd (some 90) none none)).1
        (Cmd.rotateCmd none (some 45) none)).1.camera.orient =
      initState.camera.orient ++ [(Axis.x, 90), (Axis.y, 45)]) :=
  ⟨rotate_amended.1 noFaults initState (some 30) none none,
   rotate_amended.2.1 [] (some 90) (some 45) none
     (fun v hv => by cases hv; norm_num)
     (fun v hv => by cases hv; norm_num)
     (fun v hv => Option.noConfusion hv),
   rotate_amended.2.2 noFaults initState⟩

-- ===== Claim C6 =====

/-- Claim C6 counterexample: a zoom factor of zero is not rejected with a
protocol error; it is silently replaced by the default 1.2, and a
negative factor is passed straight through with no error either. -/
theorem zoom_zero_counterexample :
    (execCommand noFaults initState (Cmd.zoomCmd (some 0))).2 = none ∧
    (execCommand noFaults initState (Cmd.zoomCmd (some 0))).1.camera.zoomLevel = 12 / 10 ∧
    (execCommand noFaults initState (Cmd.zoomCmd (some (-2)))).2 = none ∧
    (execCommand noFaults initState (Cmd.zoomCmd (some (-2)))).1.camera.zoomLevel = -2 := by
  refine ⟨rfl, ?_, rfl, ?_⟩ <;>
    norm_num [execCommand, jsOrQ, initState, canonicalCamera]

/-- Claim C6 (amended): zoom never fails; a nonzero factor, positive or
not, scales the camera zoom by exactly that factor, while a zero or
absent factor is silently replaced by the default 1.2. -/
theorem zoom_amended (f : Faults) (s : RenderState) (q : ℚ) (hq : q ≠ 0) :
    (execCommand f s (Cmd.zoomCmd (some q))).2 = none ∧
    (execCommand f s (Cmd.zoomCmd (some q))).1.camera.zoomLevel =
      s.camera.zoomLevel * q ∧
    (execCommand f s (Cmd.zoomCmd (some 0))).2 = none ∧
    (execCommand f s (Cmd.zoomCmd (some 0))).1.camera.zoomLevel =
      s.camera.zoomLevel * (12 / 10) ∧
    (execCommand f s (Cmd.zoomCmd none)).1.camera.zoomLevel =
      s.camera.zoomLevel * (12 / 10) := by
  refine ⟨rfl, ?_, rfl, ?_, ?_⟩ <;> simp [execCommand, jsOrQ, hq]

theorem zoom_amended_witness :
    (2 : ℚ) ≠ 0 ∧
    ((execCommand noFaults initState (Cmd.zoomCmd (some 2))).2 = none ∧
      (execCommand noFaults initState (Cmd.zoomCmd (some 2))).1.camera.zoomLevel =
        initState.camera.zoomLevel * 2 ∧
      (execCommand noFaults initState (Cmd.zoomCmd (some 0))).2 = none ∧
      (execCommand noFaults initState (Cmd.zoomCmd (some 0))).1.camera.zoomLevel =
        initState.camera.zoomLevel * (12 / 10) ∧
      (execCommand noFaults initState (Cmd.zoomCmd none)).1.camera.zoomLevel =
        initState.camera.zoomLevel * (12 / 10)) :=
  ⟨by norm_num, zoom_amended noFaults initState 2 (by norm_num)⟩

-- ===== Claim C7 =====

/-- Claim C7 counterexample: style rules survive reset_view; after
set_style then reset the style rule list is still nonempty, so reset does
not clear styleRules as claimed. -/
theorem reset_keeps_styles_counterexample :
    (execCommand noFaults
        (execCommand noFaults initState
          (Cmd.set_style (some (Sel.chainSel ("A"))) (some (VStyle.customStyle ("stick"))))).1
        Cmd.resetCmd).1.styleRules ≠ [] := by
  decide

/-- Claim C7 (amended): reset_view clears shapes, surfaces and the active
box, hides the box info, keeps loadedStructureId, and restores the camera
view saved at the most recent load (falling back to a zoom-to-fit); the
style rules are left unchanged rather than cleared. -/
theorem reset_amended (f : Faults) (s : RenderState) :
    (execCommand f s Cmd.resetCmd).2 = none ∧
    (execCommand f s Cmd.resetCmd).1.shapes = [] ∧
    (execCommand f s Cmd.resetCmd).1.surfaces = [] ∧
    (execCommand f s Cmd.resetCmd).1.hasActiveBox = false ∧
    (execCommand f s Cmd.resetCmd).1.boxCenter = none ∧
    (execCommand f s Cmd.resetCmd).1.boxSize = none ∧
    (execCommand f s Cmd.resetCmd).1.boxinfoVisible = false ∧
    (execCommand f s Cmd.resetCmd).1.loadedStructureId = s.loadedStructureId ∧
    (execCommand f s Cmd.resetCmd).1.styleRules = s.styleRules ∧
    (execCommand f s Cmd.resetCmd).1.camera =
      (match s.initialView with
       | some v => v
       | none => { s.camera with zoomLevel := 1 }) :=
  ⟨rfl, rfl, rfl, rfl, rfl, rfl, rfl, rfl, rfl, rfl⟩

-- ===== Claim C1 =====

/-- Claim C1: for every command envelope carrying a correlation
identifier, the handler emits exactly one response, success or error,
tagged with exactly that identifier; no received command is left without
a terminal outcome on the executor side. -/
theorem executor_always_responds (f : Faults) (s : RenderState) (d : Envelope)
    (h : (Envelope.corrId d).isSome = true) :
    (handleCommand f s d).2.length = 1 ∧
    (handleCommand f s d).2.head?.map Response.corrId = Envelope.corrId d := by
  by_cases h1 : strTruthy d.request_id = true
  · cases hreq : d.request_id with
    | none => rw [hreq] at h1; simp [strTruthy] at h1
    | some rid =>
        rw [hreq] at h1
        cases hex : (execCommand f s d.payload).2 with
        | none => simp [handleCommand, Envelope.corrId, hex, h1, hreq, Response.corrId]
        | some e => simp [handleCommand, Envelope.corrId, hex, h1, hreq, Response.corrId]
  · have h1f : strTruthy d.request_id = false := by
      cases hb : strTruthy d.request_id
      · rfl
      · exact absurd hb h1
    by_cases h2 : strTruthy d.response_event = true
    · cases hresp : d.response_event with
      | none => rw [hresp] at h2; simp [strTruthy] at h2
      | some ev =>
          rw [hresp] at h2
          cases hex : (execCommand f s d.payload).2 with
          | none => simp [handleCommand, Envelope.corrId, hex, h1f, h2, hresp, Response.corrId]
          | some e => simp [handleCommand, Envelope.corrId, hex, h1f, h2, hresp, Response.corrId]
    · have h2f : strTruthy d.response_event = false := by
        cases hb : strTruthy d.response_event
        · rfl
        · exact absurd hb h2
      unfold Envelope.corrId at h
      rw [h1f, h2f] at h
      simp at h

theorem executor_always_responds_witness :
    (Envelope.corrId
        { payload := Cmd.highlight_hetero, request_id := some ("abc"),
          response_event := none }).isSome = true ∧
    ((handleCommand noFaults initState
        { payload := Cmd.highlight_hetero, request_id := some ("abc"),
          response_event := none }).2.length = 1 ∧
      (handleCommand noFaults initState
        { payload := Cmd.highlight_hetero, request_id := some ("abc"),
          response_event := none }).2.head?.map Response.corrId =
        Envelope.corrId
          { payload := Cmd.highlight_hetero, request_id := some ("abc"),
            response_event := none }) :=
  ⟨by decide,
   executor_always_responds noFaults initState
     { payload := Cmd.highlight_hetero, request_id := some ("abc"),
       response_event := none } (by decide)⟩

-- ===== Claim C8 =====

theorem execCommand_shapes_le_one (f : Faults) (s : RenderState) (c : Cmd)
    (h : s.shapes.length ≤ 1) : (execCommand f s c).1.shapes.length ≤ 1 := by
  cases c <;> simp only [execCommand] <;> (try split) <;> simp_all

theorem runCommands_shapes_le_one (f : Faults) (cs : List Cmd) :
    (runCommands f cs).shapes.length ≤ 1 := by
  unfold runCommands
  have H : ∀ (l : List Cmd) (s : RenderState), s.shapes.length ≤ 1 →
      (l.foldl (fun s c => (execCommand f s c).1) s).shapes.length ≤ 1 := by
    intro l
    induction l with
    | nil => intro s hs; simpa using hs
    | cons c rest ih =>
        intro s hs
        simpa using ih _ (execCommand_shapes_le_one f s c hs)
  exact H cs initState (by simp [initState])

/-- Claim C8: with positive size components, add_box records the active
box exactly as requested and installs it as the only shape, replacing any
previous box; across every command sequence at most one box shape ever
exists. -/
theorem add_box_single_active (f : Faults) (s : RenderState) (c sz : Vec3)
    (hx : 0 < sz.x) (hy : 0 < sz.y) (hz : 0 < sz.z) :
    (execCommand noFaults s (Cmd.add_box (some c) (some sz))).1.boxCenter = some c ∧
    (execCommand noFaults s (Cmd.add_box (some c) (some sz))).1.boxSize = some sz ∧
    (execCommand noFaults s (Cmd.add_box (some c) (some sz))).1.hasActiveBox = true ∧
    (execCommand noFaults s (Cmd.add_box (some c) (some sz))).1.shapes = [(c, sz)] ∧
    ∀ cs : List Cmd, (runCommands f cs).shapes.length ≤ 1 := by
  obtain ⟨cx, cy, cz⟩ := c
  obtain ⟨sx, sy, sz3⟩ := sz
  refine ⟨?_, ?_, ?_, ?_, fun cs => runCommands_shapes_le_one f cs⟩ <;>
    simp [execCommand, noFaults, jsOrQ_zero_right,
      jsOrQ_of_ne sx 20 hx.ne', jsOrQ_of_ne sy 20 hy.ne', jsOrQ_of_ne sz3 20 hz.ne']

theorem add_box_single_active_witness :
    ((0:ℚ) < 4 ∧ (0:ℚ) < 5 ∧ (0:ℚ) < 6) ∧
    (execCommand noFaults initState
        (Cmd.add_box (some { x := 1, y := 2, z := 3 })
          (some { x := 4, y := 5, z := 6 }))).1.boxCenter =
      some { x := 1, y := 2, z := 3 } ∧
    (execCommand noFaults initState
        (Cmd.add_box (some { x := 1, y := 2, z := 3 })
          (some { x := 4, y := 5, z := 6 }))).1.boxSize =
      some { x := 4, y := 5, z := 6 } ∧
    (execCommand noFaults initState
        (Cmd.add_box (some { x := 1, y := 2, z := 3 })
          (some { x := 4, y := 5, z := 6 }))).1.hasActiveBox = true ∧
    (execCommand noFaults initState
        (Cmd.add_box (some { x := 1, y := 2, z := 3 })
          (some { x := 4, y := 5, z := 6 }))).1.shapes =
      [({ x := 1, y := 2, z := 3 }, { x := 4, y := 5, z := 6 })] ∧
    (runCommands noFaults [Cmd.add_box (some { x := 1, y := 2, z := 3 })
        (some { x := 4, y := 5, z := 6 }),
      Cmd.add_box (some { x := 1, y := 2, z := 3 })
        (some { x := 4, y := 5, z := 6 })]).shapes.length ≤ 1 :=
  ⟨⟨by norm_num, by norm_num, by norm_num⟩,
   (add_box_single_active noFaults initState
      { x := 1, y := 2, z := 3 } { x := 4, y := 5, z := 6 }
      (by norm_num) (by norm_num) (by norm_num)).1,
   (add_box_single_active noFaults initState
      { x := 1, y := 2, z := 3 } { x := 4, y := 5, z := 6 }
      (by norm_num) (by norm_num) (by norm_num)).2.1,
   (add_box_single_active noFaults initState
      { x := 1, y := 2, z := 3 } { x := 4, y := 5, z := 6 }
      (by norm_num) (by norm_num) (by norm_num)).2.2.1,
   (add_box_single_active noFaults initState
      { x := 1, y := 2, z := 3 } { x := 4, y := 5, z := 6 }
      (by norm_num) (by norm_num) (by norm_num)).2.2.2.1,
   (add_box_single_active noFaults initState
      { x := 1, y := 2, z := 3 } { x := 4, y := 5, z := 6 }
      (by norm_num) (by norm_num) (by norm_num)).2.2.2.2 _⟩

-- ===== Claim C10 =====

/-- Claim C10: when the renderer rejects add_box (the addBox call
throws), the executor swallows the error inside the command handler,
still records the requested box as active state without any shape added,
and the handler reports the command as a success tagged with the request
id, not as an error. -/
theorem add_box_error_swallowed (s : RenderState) (c sz : Vec3) (rid : String)
    (hx : sz.x ≠ 0) (hy : sz.y ≠ 0) (hz : sz.z ≠ 0) (hr : rid ≠ String.mk []) :
    (execCommand { fetchFails := false, addBoxThrows := true } s
        (Cmd.add_box (some c) (some sz))).2 = none ∧
    (execCommand { fetchFails := false, addBoxThrows := true } s
        (Cmd.add_box (some c) (some sz))).1.hasActiveBox = true ∧
    (execCommand { fetchFails := false, addBoxThrows := true } s
        (Cmd.add_box (some c) (some sz))).1.boxCenter = some c ∧
    (execCommand { fetchFails := false, addBoxThrows := true } s
        (Cmd.add_box (some c) (some sz))).1.boxSize = some sz ∧
    (execCommand { fetchFails := false, addBoxThrows := true } s
        (Cmd.add_box (some c) (some sz))).1.shapes = [] ∧
    (handleCommand { fetchFails := false, addBoxThrows := true } s
        { payload := Cmd.add_box (some c) (some sz), request_id := some rid,
          response_event := none }).2.map Response.isSuccess = [true] ∧
    (handleCommand { fetchFails := false, addBoxThrows := true } s
        { payload := Cmd.add_box (some c) (some sz), request_id := some rid,
          response_event := none }).2.map Response.corrId = [rid] := by
  obtain ⟨cx, cy, cz⟩ := c
  obtain ⟨sx, sy, sz3⟩ := sz
  refine ⟨rfl, rfl, ?_, ?_, rfl, ?_, ?_⟩
  · simp [execCommand, jsOrQ_zero_right]
  · simp [execCommand, jsOrQ_of_ne sx 10 hx, jsOrQ_of_ne sy 10 hy,
      jsOrQ_of_ne sz3 10 hz]
  · simp [handleCommand, execCommand, strTruthy, hr, Response.isSuccess]
  · simp [handleCommand, execCommand, strTruthy, hr, Response.corrId]

theorem add_box_error_swallowed_witness :
    ((7:ℚ) ≠ 0 ∧ (8:ℚ) ≠ 0 ∧ (9:ℚ) ≠ 0 ∧ ("r1" : String) ≠ String.mk []) ∧
    ((execCommand { fetchFails := false, addBoxThrows := true } initState
        (Cmd.add_box (some { x := 1, y := 2, z := 3 })
          (some { x := 7, y := 8, z := 9 }))).2 = none ∧
      (execCommand { fetchFails := false, addBoxThrows := true } initState
        (Cmd.add_box (some { x := 1, y := 2, z := 3 })
          (some { x := 7, y := 8, z := 9 }))).1.hasActiveBox = true ∧
      (execCommand { fetchFails := false, addBoxThrows := true } initState
        (Cmd.add_box (some { x := 1, y := 2, z := 3 })
          (some { x := 7, y := 8, z := 9 }))).1.boxCenter =
        some { x := 1, y := 2, z := 3 } ∧
      (execCommand { fetchFails := false, addBoxThrows := true } initState
        (Cmd.add_box (some { x := 1, y := 2, z := 3 })
          (some { x := 7, y := 8, z := 9 }))).1.boxSize =
        some { x := 7, y := 8, z := 9 } ∧
      (execCommand { fetchFails := false, addBoxThrows := true } initState
        (Cmd.add_box (some { x := 1, y := 2, z := 3 })
          (some { x := 7, y := 8, z := 9 }))).1.shapes = [] ∧
      (handleCommand { fetchFails := false, addBoxThrows := true } initState
        { payload := Cmd.add_box (some { x := 1, y := 2, z := 3 })
            (some { x := 7, y := 8, z := 9 }),
          request_id := some ("r1"), response_event := none }).2.map
        Response.isSuccess = [true] ∧
      (handleCommand { fetchFails := false, addBoxThrows := true } initState
        { payload := Cmd.add_box (some { x := 1, y := 2, z := 3 })
            (some { x := 7, y := 8, z := 9 }),
          request_id := some ("r1"), response_event := none }).2.map
        Response.corrId = [("r1")]) :=
  ⟨⟨by norm_num, by norm_num, by norm_num, by decide⟩,
   add_box_error_swallowed initState { x := 1, y := 2, z := 3 }
     { x := 7, y := 8, z := 9 } ("r1")
     (by norm_num) (by norm_num) (by norm_num) (by decide)⟩

-- ===== Claim C2 =====

theorem regGood_init : RegGood regInit := rfl

theorem regGood_step (r : Registry) (e : ConnEvent) (h : RegGood r) :
    RegGood (regStep r e) := by
  cases e with
  | connect sid =>
      unfold RegGood regStep onConnect at *
      cases hs : r.slot with
      | none =>
          rw [hs] at h
          simp [hs, h]
      | some p =>
          rw [hs] at h
          simp [hs, h]
  | disconnect sid =>
      unfold RegGood regStep onDisconnect at *
      cases hs : r.slot with
      | none =>
          rw [hs] at h
          simp [hs, h]
      | some p =>
          rw [hs] at h
          by_cases hps : p = sid
          · subst hps
            simp [h]
          · simp [h, hps, Ne.symm hps]

theorem regGood_run (evs : List ConnEvent) : RegGood (regRun evs) := by
  unfold regRun
  have H : ∀ (l : List ConnEvent) (r : Registry), RegGood r →
      RegGood (l.foldl regStep r) := by
    intro l
    induction l with
    | nil => exact fun r h => h
    | cons e rest ih => exact fun r h => ih _ (regGood_step r e h)
  exact H evs regInit regGood_init

/-- Claim C2: at most one session holds the primary role under every
connect/disconnect interleaving; the first connect while the slot is free
is registered as primary, any further connect while a primary exists is
refused and changes nothing, and a primary disconnect clears the slot so
that a later connect is registered again. -/
theorem session_registry_exclusive :
    (∀ evs : List ConnEvent, countPrimary (regRun evs) ≤ 1) ∧
    (∀ (r : Registry) (sid : Nat), r.slot = none →
      (onConnect r sid).2 = true ∧ (onConnect r sid).1.slot = some sid) ∧
    (∀ (r : Registry) (sid p : Nat), r.slot = some p →
      (onConnect r sid).2 = false ∧ (onConnect r sid).1 = r) ∧
    (∀ (r : Registry) (p : Nat), r.slot = some p →
      (onDisconnect r p).slot = none ∧
      ∀ sid2 : Nat, (onConnect (onDisconnect r p) sid2).2 = true ∧
        (onConnect (onDisconnect r p) sid2).1.slot = some sid2) := by
  refine ⟨?_, ?_, ?_, ?_⟩
  · intro evs
    have h := regGood_run evs
    unfold RegGood at h
    unfold countPrimary
    cases hs : (regRun evs).slot with
    | none => rw [hs] at h; simp [h]
    | some p => rw [hs] at h; simp [h]
  · intro r sid h
    simp [onConnect, h]
  · intro r sid p h
    simp [onConnect, h]
  · intro r p h
    refine ⟨?_, ?_⟩
    · simp [onDisconnect, h]
    · intro sid2
      simp [onConnect, onDisconnect, h]

theorem session_registry_exclusive_witness :
    countPrimary (regRun
      [ConnEvent.connect 1, ConnEvent.connect 2, ConnEvent.disconnect 1,
        ConnEvent.connect 3]) ≤ 1 ∧
    ((onConnect regInit 7).2 = true ∧ (onConnect regInit 7).1.slot = some 7) ∧
    ((onConnect { slot := some 1, sessions := [1] } 2).2 = false ∧
      (onConnect { slot := some 1, sessions := [1] } 2).1 =
        { slot := some 1, sessions := [1] }) ∧
    ((onDisconnect { slot := some 1, sessions := [1] } 1).slot = none ∧
      (onConnect (onDisconnect { slot := some 1, sessions := [1] } 1) 3).2 = true ∧
      (onConnect (onDisconnect { slot := some 1, sessions := [1] } 1) 3).1.slot =
        some 3) :=
  ⟨session_registry_exclusive.1
     [ConnEvent.connect 1, ConnEvent.connect 2, ConnEvent.disconnect 1,
       ConnEvent.connect 3],
   session_registry_exclusive.2.1 regInit 7 rfl,
   session_registry_exclusive.2.2.1 { slot := some 1, sessions := [1] } 2 1 rfl,
   (session_registry_exclusive.2.2.2 { slot := some 1, sessions := [1] } 1 rfl).1,
   (session_registry_exclusive.2.2.2 { slot := some 1, sessions := [1] } 1 rfl).2 3⟩

-- ===== Claim C9 =====

theorem fireTimers_core (u : Nat) (σ : CssState) : (fireTimers u σ).core = σ.core := by
  unfold fireTimers
  split <;> rfl

theorem rotateCss_core (t : Nat) (σ : CssState) (a : RotArgs) :
    (rotateCss t σ a).core = rotateCore σ.core a := rfl

theorem runCssT_core (args : List RotArgs) :
    ∀ (σ : CssState) (sched : Nat → Nat) (i : Nat),
      (runCssT σ args sched i).core = runCore σ.core args := by
  induction args with
  | nil => intro σ sched i; rfl
  | cons a rest ih =>
      intro σ sched i
      unfold runCssT runCore
      rw [ih, rotateCss_core, fireTimers_core]

/-- Claim C9 counterexample: in the CSS-transform rotate revision,
applying the same rotate command to the same state at two different
wall-clock instants yields different successor states (their scheduled
reset timers differ), and the state observed after the 2000 ms timer has
fired differs from the state observed before it, so the transition is not
independent of wall-clock time. -/
theorem rotate_wallclock_counterexample :
    rotateCss 0 cssInit ((some 90), none, none) ≠
      rotateCss 1 cssInit ((some 90), none, none) ∧
    fireTimers 0 (rotateCss 0 cssInit ((some 90), none, none)) ≠
      fireTimers 2000 (rotateCss 0 cssInit ((some 90), none, none)) := by
  refine ⟨?_, ?_⟩ <;> decide

/-- Claim C9 (amended): the effect of every command of the CSS-transform
rotate revision on the model-level core state (composed camera rotations
and bookkeeping flags) is a pure function of the command sequence and the
prior state, independent of both the instants at which the commands
execute and the instant at which the state is observed; only the cosmetic
canvas transform and border, which a scheduled timer reverts 2000 ms
later, depend on wall-clock time. -/
theorem css_core_time_independent (σ : CssState) (args : List RotArgs)
    (sched sched2 : Nat → Nat) (i i2 u u2 : Nat) :
    (fireTimers u (runCssT σ args sched i)).core =
      (fireTimers u2 (runCssT σ args sched2 i2)).core ∧
    (fireTimers u (runCssT σ args sched i)).core = runCore σ.core args := by
  rw [fireTimers_core, fireTimers_core, runCssT_core, runCssT_core]
  exact ⟨rfl, rfl⟩

-- ===== Claim C4 =====

theorem corrGood_init : CorrGood corrInit := by
  unfold CorrGood corrInit
  refine ⟨?_, ?_, ?_, ?_⟩ <;> simp

theorem corrGood_step (σ : CorrTable) (e : CorrEvent) (h : CorrGood σ) :
    CorrGood (corrStep σ e) := by
  obtain ⟨h1, h2, h3, h4⟩ := h
  cases e with
  | send len =>
      refine ⟨?_, ?_, ?_, ?_⟩
      · intro p hp
        simp only [corrStep, List.mem_cons] at hp
        rcases hp with rfl | hp
        · simp [corrStep]
        · exact Nat.lt_succ_of_lt (h1 p hp)
      · intro q hq
        simp only [corrStep] at hq
        exact Nat.lt_succ_of_lt (h2 q hq)
      · intro p hp q hq
        simp only [corrStep, List.mem_cons] at hp hq
        rcases hp with rfl | hp
        · intro hc
          have := h2 q hq
          simp only at hc
          omega
        · exact h3 p hp q hq
      · simp only [corrStep, List.map_cons]
        refine List.nodup_cons.mpr ⟨?_, h4⟩
        intro hmem
        rcases List.mem_map.mp hmem with ⟨p, hp, hfst⟩
        have := h1 p hp
        omega
  | tick =>
      refine ⟨?_, ?_, ?_, ?_⟩
      · intro p hp
        simp only [corrStep, List.mem_filter] at hp
        exact h1 p hp.1
      · intro q hq
        simp only [corrStep, List.mem_append, List.mem_map, List.mem_filter] at hq
        rcases hq with ⟨p, ⟨hp, _⟩, rfl⟩ | hq
        · exact h1 p hp
        · exact h2 q hq
      · intro p hp q hq
        simp only [corrStep, List.mem_filter, List.mem_append, List.mem_map] at hp hq
        rcases hq with ⟨p2, ⟨hp2, hd2⟩, rfl⟩ | hq
        · intro hc
          simp only at hc
          have hpq : p = p2 := List.inj_on_of_nodup_map h4 hp.1 hp2 hc
          have hk := hp.2
          rw [hpq] at hk
          simp only [decide_eq_true_eq] at hk hd2
          omega
        · exact h3 p hp.1 q hq
      · simp only [corrStep]
        exact h4.sublist (List.Sublist.map _ (List.filter_sublist _))
  | response idv img =>
      by_cases hc : (σ.pending.any (fun p => decide (p.1 = idv))) = true
      · have hidlt : idv < σ.nextId := by
          rcases List.any_eq_true.mp hc with ⟨p, hp, hpe⟩
          simp only [decide_eq_true_eq] at hpe
          exact hpe ▸ h1 p hp
        have hstep : corrStep σ (CorrEvent.response idv img) =
            { σ with
                pending := σ.pending.filter (fun p => decide (p.1 ≠ idv))
                resolved := (idv, CallOutcome.okImg img) :: σ.resolved } := by
          simp only [corrStep]
          rw [if_pos hc]
        rw [hstep]
        refine ⟨?_, ?_, ?_, ?_⟩
        · intro p hp
          simp only [List.mem_filter] at hp
          exact h1 p hp.1
        · intro q hq
          simp only [List.mem_cons] at hq
          rcases hq with rfl | hq
          · exact hidlt
          · exact h2 q hq
        · intro p hp q hq
          simp only [List.mem_filter] at hp
          simp only [List.mem_cons] at hq
          rcases hq with rfl | hq
          · have := hp.2
            simpa using this
          · exact h3 p hp.1 q hq
        · exact h4.sublist (List.Sublist.map _ (List.filter_sublist _))
      · have hstep : corrStep σ (CorrEvent.response idv img) = σ := by
          simp only [corrStep]
          rw [if_neg hc]
        rw [hstep]
        exact ⟨h1, h2, h3, h4⟩

theorem corrGood_run (evs : List CorrEvent) : CorrGood (corrRun evs) := by
  unfold corrRun
  have H : ∀ (l : List CorrEvent) (σ : CorrTable), CorrGood σ →
      CorrGood (l.foldl corrStep σ) := by
    intro l
    induction l with
    | nil => exact fun σ h => h
    | cons e rest ih => exact fun σ h => ih _ (corrGood_step σ e h)
  exact H evs corrInit corrGood_init

/-- Claim C4: in every reachable correlation table, a pending call whose
deadline has elapsed at the next tick is failed with a Timeout outcome
and removed from the table, and a response arriving for an id that
already timed out resolves no pending call at all — the table is left
unchanged, so neither the original waiter nor any other or reused waiter
sees it. -/
theorem correlation_timeout_discards_late (evs : List CorrEvent) (idv img : Nat) :
    (∀ p ∈ (corrRun evs).pending, p.2 ≤ (corrRun evs).now + 1 →
      ((p.1, CallOutcome.timedOut) ∈ (corrStep (corrRun evs) CorrEvent.tick).resolved ∧
        ∀ q ∈ (corrStep (corrRun evs) CorrEvent.tick).pending, q.1 ≠ p.1)) ∧
    ((idv, CallOutcome.timedOut) ∈ (corrRun evs).resolved →
      corrStep (corrRun evs) (CorrEvent.response idv img) = corrRun evs) := by
  obtain ⟨h1, h2, h3, h4⟩ := corrGood_run evs
  constructor
  · intro p hp hd
    constructor
    · simp only [corrStep, List.mem_append, List.mem_map, List.mem_filter]
      exact Or.inl ⟨p, ⟨hp, by simpa using hd⟩, rfl⟩
    · intro q hq
      simp only [corrStep, List.mem_filter] at hq
      intro hc
      have hqp : q = p := List.inj_on_of_nodup_map h4 hq.1 hp hc
      have hk := hq.2
      rw [hqp] at hk
      simp only [decide_eq_true_eq] at hk
      omega
  · intro hres
    have hnone : ((corrRun evs).pending.any (fun p => decide (p.1 = idv))) = false := by
      by_contra hcon
      have hT : ((corrRun evs).pending.any (fun p => decide (p.1 = idv))) = true := by
        cases hb : (corrRun evs).pending.any (fun p => decide (p.1 = idv))
        · exact absurd hb hcon
        · rfl
      rcases List.any_eq_true.mp hT with ⟨p, hp, hpe⟩
      simp only [decide_eq_true_eq] at hpe
      exact h3 p hp (idv, CallOutcome.timedOut) hres hpe
    simp only [corrStep]
    rw [if_neg]
    rw [hnone]
    simp

theorem correlation_timeout_discards_late_witness :
    ((0, 1) ∈ (corrRun [CorrEvent.send 1]).pending ∧
      (0, 1).2 ≤ (corrRun [CorrEvent.send 1]).now + 1 ∧
      (0, CallOutcome.timedOut) ∈ (corrRun [CorrEvent.send 1, CorrEvent.tick]).resolved) ∧
    ((0, CallOutcome.timedOut) ∈
        (corrStep (corrRun [CorrEvent.send 1]) CorrEvent.tick).resolved ∧
      corrStep (corrRun [CorrEvent.send 1, CorrEvent.tick]) (CorrEvent.response 0 7) =
        corrRun [CorrEvent.send 1, CorrEvent.tick]) :=
  ⟨⟨by decide, by decide, by decide⟩,
   ((correlation_timeout_discards_late [CorrEvent.send 1] 0 7).1 (0, 1)
      (by decide) (by decide)).1,
   (correlation_timeout_discards_late [CorrEvent.send 1, CorrEvent.tick] 0 7).2
     (by decide)⟩
